import Mathlib

/-!
Shallow embedding of the `datadiag` repository (src/src/datadiag/datadiag.py and
src/src/datadiag/report.py) and proofs about it.

Modelling conventions:
* A pandas cell value is `Val`: a numeric value (modelled by `ℚ`, exact, so the
  spec's floating tolerances hold trivially), a string, or the missing marker
  `na` (NaN/None).
* A pandas column carries its name, its declared dtype and its cell values; a
  `DataFrame` is the ordered list of its columns.  `len(df)` is the shared row
  count, read off the first column.
* Python exceptions become the `PyError` inductive; a fallible operation
  returns `Except PyError α`.  pandas label lookup (`df[list_of_names]`,
  `df.drop(columns=...)`) raises `KeyError` naming the missing labels, which is
  modelled by `PyError.keyError`.  The error names `columnNotFound` and
  `reportWriteError` appear in the specification's taxonomy; they are included
  as constructors so that claims about them can be stated, but no code path
  produces them.
-/

namespace Datadiag

/-- Python exceptions relevant to the two modules.  `keyError` carries the
labels pandas reports as "not found in axis".  `reportWriteError` and
`columnNotFound` are the error names proposed by the specification; the source
never defines nor raises them. -/
inductive PyError where
  | fileNotFoundError : PyError
  | keyError (labels : List String) : PyError
  | valueError : PyError
  | badZipFile : PyError
  | permissionError : PyError
  | columnNotFound (labels : List String) : PyError
  | reportWriteError (cause : PyError) : PyError
deriving DecidableEq, Repr

/-- Whether an exception is the specification's `ColumnNotFound`. -/
def PyError.isColumnNotFound : PyError → Bool
  | .columnNotFound _ => true
  | _ => false

/-- Whether an exception is the specification's `ReportWriteError`. -/
def PyError.isReportWriteError : PyError → Bool
  | .reportWriteError _ => true
  | _ => false

/-- A cell value: numeric (exact rational model of int/float), text, or the
missing marker (None/NaN). -/
inductive Val where
  | num (q : ℚ) : Val
  | str (s : String) : Val
  | na : Val
deriving DecidableEq, Repr

/-- The pandas dtype of a column, as far as the source consults it
(`pd.api.types.is_numeric_dtype`). -/
inductive Dtype where
  | int64 : Dtype
  | float64 : Dtype
  | boolDtype : Dtype
  | objectDtype : Dtype
deriving DecidableEq, Repr

/-- `pd.api.types.is_numeric_dtype`: int, float and bool dtypes are numeric. -/
def is_numeric_dtype : Dtype → Bool
  | .int64 => true
  | .float64 => true
  | .boolDtype => true
  | .objectDtype => false

/-- One named, typed column of a table. -/
structure Column where
  name : String
  dtype : Dtype
  values : List Val
deriving DecidableEq, Repr

/-- A pandas DataFrame: ordered named columns.  Well-formedness (all columns
sharing the row count, unique names) is assumed as hypotheses where needed. -/
structure DataFrame where
  cols : List Column
deriving DecidableEq, Repr

/-- `df.columns`: the column names in order. -/
def DataFrame.columns (df : DataFrame) : List String :=
  df.cols.map Column.name

/-- `len(df)`: the row count, read off the first column (0 for a frame with no
columns, as in pandas when constructed from no data). -/
def DataFrame.len (df : DataFrame) : ℕ :=
  match df.cols with
  | [] => 0
  | c :: _ => c.values.length

/-- `df[name]`: label lookup of a single column's values (first match; names
are unique in a well-formed frame). -/
def DataFrame.getCol (df : DataFrame) (n : String) : List Val :=
  match df.cols.find? (fun c => c.name == n) with
  | some c => c.values
  | none => []

/-- `df[names]`: label-based column selection.  pandas raises `KeyError`
naming the missing labels when any requested label is absent; otherwise it
returns the columns in the requested order. -/
def DataFrame.select (df : DataFrame) (names : List String) : Except PyError DataFrame :=
  if names.all (fun n => df.columns.contains n) then
    Except.ok ⟨names.filterMap (fun n => df.cols.find? (fun c => c.name == n))⟩
  else
    Except.error (PyError.keyError (names.filter (fun n => !(df.columns.contains n))))

/-- `df.drop(columns=labels)`: removes the named columns; pandas raises
`KeyError` naming the labels "not found in axis" when any is absent
(`errors='raise'` is the default). -/
def DataFrame.drop (df : DataFrame) (labels : List String) : Except PyError DataFrame :=
  if labels.all (fun n => df.columns.contains n) then
    Except.ok ⟨df.cols.filter (fun c => !(labels.contains c.name))⟩
  else
    Except.error (PyError.keyError (labels.filter (fun n => !(df.columns.contains n))))

/-- `DataDiagnoser._sort_dataframe`, lifted to a standalone function of the
fields it reads:
`all_columns = list(self.dataframe.columns)`;
`remaining_columns = [col for col in all_columns if col not in first + last]`;
`sorted_columns = first + remaining + last`; `self.dataframe[sorted_columns]`. -/
def sort_dataframe (dataframe : DataFrame) (first_columns last_columns : List String) :
    Except PyError DataFrame :=
  let all_columns := dataframe.columns
  let remaining_columns :=
    all_columns.filter (fun col => !((first_columns ++ last_columns).contains col))
  let sorted_columns := first_columns ++ remaining_columns ++ last_columns
  dataframe.select sorted_columns

/-- The `DataDiagnoser` object: the constructor arguments plus the
`sorted_dataframe` computed once in `__init__`. -/
structure DataDiagnoser where
  dataframe : DataFrame
  first_columns : List String
  last_columns : List String
  ignore_columns : List String
  sorted_dataframe : DataFrame
deriving DecidableEq, Repr

/-- `DataDiagnoser.__init__` (with the `None`-defaults already resolved to
lists): stores the arguments and computes `sorted_dataframe` via
`_sort_dataframe`, which can raise. -/
def DataDiagnoser.init (dataframe : DataFrame)
    (first_columns last_columns ignore_columns : List String) :
    Except PyError DataDiagnoser :=
  match sort_dataframe dataframe first_columns last_columns with
  | Except.error e => Except.error e
  | Except.ok s =>
      Except.ok ⟨dataframe, first_columns, last_columns, ignore_columns, s⟩

/-- `series.isnull().sum()` for one column: the number of missing cells. -/
def countNull (vs : List Val) : ℕ :=
  (vs.filter (fun v => v == Val.na)).length

/-- `DataDiagnoser.diagnose_missing_values`: drops the ignored columns (which
can raise `KeyError`), then returns per column the absolute count of missing
values and `abs / len(df_to_diagnose) * 100`.  The result DataFrame is modelled
as the list of rows `(column name, absolute, percentage)` indexed by column
name.  (In ℚ, division by a zero row count yields 0 where pandas yields
NaN/inf; the claims about percentages all assume at least one row.) -/
def DataDiagnoser.diagnose_missing_values (d : DataDiagnoser) :
    Except PyError (List (String × ℕ × ℚ)) :=
  match d.sorted_dataframe.drop d.ignore_columns with
  | Except.error e => Except.error e
  | Except.ok df_to_diagnose =>
      Except.ok (df_to_diagnose.cols.map (fun c =>
        let missing_abs := countNull c.values
        (c.name, missing_abs, (missing_abs : ℚ) / (df_to_diagnose.len : ℚ) * 100)))

/-- `DataDiagnoser.diagnose_data_types`: drops the ignored columns, then
returns the per-column dtypes as a Series (modelled as rows
`(column name, dtype)`). -/
def DataDiagnoser.diagnose_data_types (d : DataDiagnoser) :
    Except PyError (List (String × Dtype)) :=
  match d.sorted_dataframe.drop d.ignore_columns with
  | Except.error e => Except.error e
  | Except.ok df_to_diagnose =>
      Except.ok (df_to_diagnose.cols.map (fun c => (c.name, c.dtype)))

/-- `series.nunique()`: the number of distinct non-missing values (pandas
default `dropna=True`). -/
def nunique (vs : List Val) : ℕ :=
  ((vs.filter (fun v => !(v == Val.na))).dedup).length

/-- `DataDiagnoser.diagnose_unique_values`: drops the ignored columns, then
returns per column `nunique` and `nunique / len(df_to_diagnose) * 100`. -/
def DataDiagnoser.diagnose_unique_values (d : DataDiagnoser) :
    Except PyError (List (String × ℕ × ℚ)) :=
  match d.sorted_dataframe.drop d.ignore_columns with
  | Except.error e => Except.error e
  | Except.ok df_to_diagnose =>
      Except.ok (df_to_diagnose.cols.map (fun c =>
        let unique_count := nunique c.values
        (c.name, unique_count, (unique_count : ℚ) / (df_to_diagnose.len : ℚ) * 100)))

/-- The non-missing numeric values of a column, in order. -/
def numVals (vs : List Val) : List ℚ :=
  vs.filterMap (fun v => match v with | Val.num q => some q | _ => none)

/-- `series.min()`: skips missing values; on an all-missing (or empty) series
the result is the NaN sentinel, modelled by `Val.na`. -/
def seriesMin (vs : List Val) : Val :=
  match numVals vs with
  | [] => Val.na
  | q :: qs => Val.num (qs.foldl min q)

/-- `series.max()`: skips missing values; on an all-missing (or empty) series
the result is the NaN sentinel, modelled by `Val.na`. -/
def seriesMax (vs : List Val) : Val :=
  match numVals vs with
  | [] => Val.na
  | q :: qs => Val.num (qs.foldl max q)

/-- One entry of the `min_max_values` dict built by
`diagnose_min_max_values`: either the inner dict `{'Min': ..., 'Max': ...}`
for a numeric column, or the bare scalar string `'Not numeric'`. -/
inductive MinMaxEntry where
  | pair (mn mx : Val) : MinMaxEntry
  | scalar (s : String) : MinMaxEntry
deriving DecidableEq, Repr

/-- Whether a dict entry is a bare scalar. -/
def MinMaxEntry.isScalar : MinMaxEntry → Bool
  | .scalar _ => true
  | _ => false

/-- `DataDiagnoser.diagnose_min_max_values`: drops the ignored columns, builds
per column either `{'Min': min, 'Max': max}` (numeric dtype) or the scalar
`'Not numeric'`, then constructs `pd.DataFrame(min_max_values).T`.  The pandas
DataFrame constructor raises `ValueError` ("If using all scalar values, you
must pass an index") when the dict is non-empty and every value is a bare
scalar; otherwise scalars are broadcast over the `{Min, Max}` index, so each
row of the transposed frame is `(column name, Min field, Max field)`. -/
def DataDiagnoser.diagnose_min_max_values (d : DataDiagnoser) :
    Except PyError (List (String × Val × Val)) :=
  match d.sorted_dataframe.drop d.ignore_columns with
  | Except.error e => Except.error e
  | Except.ok df_to_diagnose =>
      let min_max_values := df_to_diagnose.cols.map (fun c =>
        if is_numeric_dtype c.dtype then
          (c.name, MinMaxEntry.pair (seriesMin c.values) (seriesMax c.values))
        else
          (c.name, MinMaxEntry.scalar "Not numeric"))
      if min_max_values ≠ [] ∧ min_max_values.all (fun p => p.2.isScalar) then
        Except.error PyError.valueError
      else
        Except.ok (min_max_values.map (fun p =>
          match p.2 with
          | MinMaxEntry.pair mn mx => (p.1, mn, mx)
          | MinMaxEntry.scalar s => (p.1, Val.str s, Val.str s)))

/-- The row type of the combined report of `diagnose`. -/
abbrev CombinedRow :=
  (String × Dtype) × (String × ℕ × ℚ) × (String × ℕ × ℚ) × (String × Val × Val)

/-- `DataDiagnoser.diagnose`: runs the four diagnostics and combines them with
`pd.concat(..., axis=1)`.  All four results are indexed by the same column
names in the same order (each performs the identical `drop`), so the
concatenation is positional pairing of their rows. -/
def DataDiagnoser.diagnose (d : DataDiagnoser) : Except PyError (List CombinedRow) := do
  let data_types ← d.diagnose_data_types
  let missing_values ← d.diagnose_missing_values
  let unique_values ← d.diagnose_unique_values
  let min_max_values ← d.diagnose_min_max_values
  return data_types.zip (missing_values.zip (unique_values.zip min_max_values))

/-- A Python method call `d.diagnose()` as a state transformer: the body of
`diagnose` (and of the four diagnostics it calls) only reads `self` — no
statement assigns to any attribute of `self` — so the receiver after the call
is the receiver unchanged. -/
def DataDiagnoser.diagnoseCall (d : DataDiagnoser) :
    Except PyError (List CombinedRow) × DataDiagnoser :=
  (d.diagnose, d)

/-!
Embedding of src/src/datadiag/report.py.

The openpyxl library is the external spreadsheet collaborator; its source is
not part of this repository.  A worksheet is modelled as a title, a grid of
cells stored column-major, and per-column display widths; a workbook exposes
its active worksheet.  The outcome of `load_workbook` and of `wb.save` depends
on the filesystem, so both are supplied as an explicit environment.
-/

/-- Python's `str()` on a cell value, as used by the column-resizing loop
(`len(str(cell.value))`).  Numeric formatting is modelled by the decimal/
fraction rendering of ℚ; the missing marker prints as `None`. -/
def pyStr : Val → String
  | Val.num q => toString q
  | Val.str s => s
  | Val.na => "None"

/-- An openpyxl worksheet: its title, its cells column-major, and the column
display widths (`ws.column_dimensions[letter].width`), aligned with `cols`. -/
structure Worksheet where
  title : String
  cols : List (List Val)
  widths : List ℚ
deriving DecidableEq, Repr

/-- An openpyxl workbook, as far as the source uses it: its active worksheet.
`Workbook()` creates a fresh workbook whose single active sheet is empty. -/
structure Workbook where
  active : Worksheet
deriving DecidableEq, Repr

/-- `Workbook()`: a new in-memory workbook with one empty sheet (openpyxl
names it "Sheet" until retitled). -/
def Workbook.new : Workbook :=
  ⟨⟨"Sheet", [], []⟩⟩

/-- Writing a list of column blocks into a column-major grid, starting at
column index `start`: positions `start, start+1, ...` are overwritten by the
blocks, other columns keep their previous content (absent columns are empty).
-/
def writeBlocksAt (cols : List (List Val)) (blocks : List (List Val)) (start : ℕ) :
    List (List Val) :=
  (List.range (max cols.length (start + blocks.length))).map (fun i =>
    if start ≤ i ∧ i < start + blocks.length then blocks.getD (i - start) []
    else cols.getD i [])

/-- Modelled from the spec: `ws.append_column(blocks, column=n)` — the
worksheet method the source calls on the openpyxl worksheet, whose
implementation is not under src/.  Spec §4.3: "Insert each column-block into
the worksheet starting at column index `atColumn` ... Treat `atColumn` as
'leftmost column index to begin writing,' shifting or overwriting existing
content"; the overwriting reading is taken. -/
def Worksheet.append_column (ws : Worksheet) (blocks : List (List Val)) (column : ℕ) :
    Worksheet :=
  { ws with cols := writeBlocksAt ws.cols blocks column }

/-- `dataframe_to_columns`: for each `column_name in df.columns`, the block
`[column_name] + df[column_name].tolist()` — the header cell followed by the
column's values. -/
def dataframe_to_columns (df : DataFrame) : List (List Val) :=
  df.columns.map (fun column_name => Val.str column_name :: df.getCol column_name)

/-- `max_length` of the resize loop for one worksheet column: the maximum of
`len(str(cell.value))` over its cells, starting from 0.  (The `try/except`
around the length computation never fires for representable values; it is
modelled as total.) -/
def maxCellLength (col : List Val) : ℕ :=
  col.foldl (fun m v => max m (pyStr v).length) 0

/-- The `if resize_columns:` loop: every column's width is set to
`(max_length + 2) * 1.2`. -/
def resizeColumns (ws : Worksheet) : Worksheet :=
  { ws with widths := ws.cols.map (fun col => ((maxCellLength col : ℚ) + 2) * (6 / 5)) }

/-- What `load_workbook(filename)` did: returned a workbook, or raised (e.g.
`FileNotFoundError` for a missing file, `BadZipFile` for a corrupt one,
`PermissionError`...). -/
inductive LoadResult where
  | ok (wb : Workbook) : LoadResult
  | raised (e : PyError) : LoadResult
deriving DecidableEq, Repr

/-- The filesystem-dependent environment of one `report_df_to_excel` call:
the outcome of `load_workbook(filename)` and the error `wb.save(filename)`
raises, if any. -/
structure SaveEnv where
  loadResult : LoadResult
  saveError : Option PyError
deriving DecidableEq, Repr

/-- The observable outcome of one `report_df_to_excel` call: the exception
that propagated to the caller (`none` = returned normally), the worksheet
contents the completed save wrote to `filename` (`none` = no save completed,
the file is left as it was), and whether `wb.close()` ran. -/
structure RunOutcome where
  err : Option PyError
  saved : Option Worksheet
  closed : Bool
deriving DecidableEq, Repr

/-- `report_df_to_excel(df, filename, sheet_name='Sheet1', num_col=0,
resize_columns=True)`: `try: wb = load_workbook(filename); ws = wb.active`
`except FileNotFoundError:` create `Workbook()`, take its active sheet and set
`ws.title = sheet_name`.  Any other load exception propagates.  Then
`ws.append_column(dataframe_to_columns(df), column=num_col)`, the optional
resize loop, and `wb.save(filename); wb.close()` — with no `try/finally`, so a
save failure propagates and skips `wb.close()`. -/
def report_df_to_excel (df : DataFrame) (env : SaveEnv) (sheet_name : String)
    (num_col : ℕ) (resize_columns : Bool) : RunOutcome :=
  let ws0 : Except PyError Worksheet :=
    match env.loadResult with
    | LoadResult.ok wb => Except.ok wb.active
    | LoadResult.raised e =>
        if e = PyError.fileNotFoundError then
          Except.ok { Workbook.new.active with title := sheet_name }
        else
          Except.error e
  match ws0 with
  | Except.error e => { err := some e, saved := none, closed := false }
  | Except.ok ws =>
      let column_df := dataframe_to_columns df
      let ws := ws.append_column column_df num_col
      let ws := if resize_columns then resizeColumns ws else ws
      match env.saveError with
      | some e => { err := some e, saved := none, closed := false }
      | none => { err := none, saved := some ws, closed := true }

/-! Concrete data used to instantiate the theorems. -/

/-- A one-column numeric frame. -/
def exADF : DataFrame := ⟨[⟨"a", Dtype.int64, [Val.num 1, Val.na]⟩]⟩

/-- A one-column non-numeric (object dtype) frame. -/
def exObjDF : DataFrame := ⟨[⟨"t", Dtype.objectDtype, [Val.str "x", Val.str "y"]⟩]⟩

/-- A diagnoser over `exObjDF` with nothing ignored. -/
def exObjDiag : DataDiagnoser := ⟨exObjDF, [], [], [], exObjDF⟩

/-- A diagnoser over `exADF` whose ignore list names a non-existent column. -/
def exBadIgnoreDiag : DataDiagnoser := ⟨exADF, [], [], ["b"], exADF⟩

/-- An environment whose load succeeds on a workbook with an empty active
sheet and whose save raises `PermissionError`. -/
def exEnvBadSave : SaveEnv := ⟨LoadResult.ok ⟨⟨"Data", [], []⟩⟩, some PyError.permissionError⟩

/-! Theorems about the claims. -/

/-- C8: each diagnostic call only reads the stored diagnoser, so calling
`diagnose` a second time on the receiver returned by the first call yields the
identical combined result and leaves the diagnoser equal to the original. -/
theorem diagnose_call_twice_eq (d : DataDiagnoser) :
    (DataDiagnoser.diagnoseCall (DataDiagnoser.diagnoseCall d).2).1 =
        (DataDiagnoser.diagnoseCall d).1 ∧
      (DataDiagnoser.diagnoseCall (DataDiagnoser.diagnoseCall d).2).2 = d :=
  ⟨rfl, rfl⟩

/-- C10: when every surviving column is non-numeric and there is at least one,
every entry of the `min_max_values` dict is the bare scalar `'Not numeric'`,
and `pd.DataFrame(min_max_values).T` raises `ValueError` instead of returning
a one-row-per-column table of sentinels. -/
theorem diagnose_min_max_all_scalar_valueerror (d : DataDiagnoser) (dfd : DataFrame)
    (hdrop : d.sorted_dataframe.drop d.ignore_columns = Except.ok dfd)
    (hne : dfd.cols ≠ [])
    (hnn : ∀ c ∈ dfd.cols, is_numeric_dtype c.dtype = false) :
    d.diagnose_min_max_values = Except.error PyError.valueError := by
  simp only [DataDiagnoser.diagnose_min_max_values, hdrop]
  split
  · rfl
  · rename_i h
    exact absurd
      ⟨by simpa using hne,
        by
          simp only [List.all_eq_true]
          intro p hp
          obtain ⟨c, hc, rfl⟩ := List.mem_map.1 hp
          simp [hnn c hc, MinMaxEntry.isScalar]⟩
      h

/-- Witness for C10 at a concrete one-column object-dtype table. -/
theorem diagnose_min_max_all_scalar_valueerror_witness :
    exObjDiag.diagnose_min_max_values = Except.error PyError.valueError :=
  diagnose_min_max_all_scalar_valueerror exObjDiag exObjDF rfl
    (by decide) (by decide)

/-- C3 counterexample: requesting the non-existent column `"b"` in
`first_columns`, or ignoring it, fails with pandas' generic `KeyError`, which
is not the `ColumnNotFound` error the claim requires (no such error exists in
the code). -/
theorem sort_and_ignore_missing_keyerror_cex :
    sort_dataframe exADF ["b"] [] = Except.error (PyError.keyError ["b"]) ∧
    exBadIgnoreDiag.diagnose_missing_values = Except.error (PyError.keyError ["b"]) ∧
    (PyError.keyError ["b"]).isColumnNotFound = false :=
  ⟨rfl, rfl, rfl⟩

/-- Columns surviving the `remaining_columns` filter are columns of the frame,
so a filter for names absent from the frame removes all of them. -/
theorem remaining_filter_absent_eq_nil (df : DataFrame) (excl : List String) :
    (df.columns.filter (fun col => !(excl.contains col))).filter
        (fun n => !(df.columns.contains n)) = [] := by
  apply List.filter_eq_nil_iff.2
  intro a ha
  have hmem : a ∈ df.columns := (List.mem_filter.1 ha).1
  simp [hmem]

/-- C3 (amended): a name in `first_columns`/`last_columns` absent from the
table makes `_sort_dataframe` raise pandas' generic `KeyError` naming the
missing columns, and a name in `ignore_columns` absent from the sorted table
makes every diagnostic operation raise `KeyError` naming the missing columns;
no `ColumnNotFound` error exists in the code. -/
theorem missing_names_raise_keyerror (df : DataFrame)
    (first_columns last_columns : List String) (d : DataDiagnoser)
    (h1 : ((first_columns ++ last_columns).all (fun n => df.columns.contains n)) = false)
    (h2 : (d.ignore_columns.all (fun n => d.sorted_dataframe.columns.contains n)) = false) :
    sort_dataframe df first_columns last_columns =
        Except.error (PyError.keyError
          ((first_columns ++ last_columns).filter (fun n => !(df.columns.contains n)))) ∧
      d.diagnose_missing_values = Except.error (PyError.keyError
          (d.ignore_columns.filter (fun n => !(d.sorted_dataframe.columns.contains n)))) ∧
      d.diagnose_data_types = Except.error (PyError.keyError
          (d.ignore_columns.filter (fun n => !(d.sorted_dataframe.columns.contains n)))) ∧
      d.diagnose_unique_values = Except.error (PyError.keyError
          (d.ignore_columns.filter (fun n => !(d.sorted_dataframe.columns.contains n)))) ∧
      d.diagnose_min_max_values = Except.error (PyError.keyError
          (d.ignore_columns.filter (fun n => !(d.sorted_dataframe.columns.contains n)))) ∧
      d.diagnose = Except.error (PyError.keyError
          (d.ignore_columns.filter (fun n => !(d.sorted_dataframe.columns.contains n)))) := by
  have hcond2 : ¬ ((d.ignore_columns.all
      (fun n => d.sorted_dataframe.columns.contains n)) = true) := by
    intro hall
    rw [hall] at h2
    exact absurd h2 (by decide)
  have hdrop : d.sorted_dataframe.drop d.ignore_columns =
      Except.error (PyError.keyError
        (d.ignore_columns.filter (fun n => !(d.sorted_dataframe.columns.contains n)))) := by
    simp only [DataFrame.drop, if_neg hcond2]
  refine ⟨?_, ?_, ?_, ?_, ?_, ?_⟩
  · simp only [sort_dataframe, DataFrame.select]
    split
    · rename_i hall
      exfalso
      rw [List.all_append, List.all_append] at hall
      rcases Bool.and_eq_true_iff.1 hall with ⟨hab, hc⟩
      rcases Bool.and_eq_true_iff.1 hab with ⟨ha, _⟩
      rw [List.all_append, ha, hc] at h1
      simp at h1
    · have hrem := remaining_filter_absent_eq_nil df (first_columns ++ last_columns)
      rw [List.filter_append, List.filter_append, List.filter_append, hrem,
        List.append_nil]
  · simp [DataDiagnoser.diagnose_missing_values, hdrop]
  · simp [DataDiagnoser.diagnose_data_types, hdrop]
  · simp [DataDiagnoser.diagnose_unique_values, hdrop]
  · simp [DataDiagnoser.diagnose_min_max_values, hdrop]
  · simp [DataDiagnoser.diagnose, DataDiagnoser.diagnose_data_types, hdrop, Bind.bind,
      Except.bind]

/-- Witness for the amended C3 at the concrete inputs of the counterexample. -/
theorem missing_names_raise_keyerror_witness :
    sort_dataframe exADF ["b"] [] = Except.error (PyError.keyError ["b"]) ∧
      exBadIgnoreDiag.diagnose = Except.error (PyError.keyError ["b"]) := by
  have h := missing_names_raise_keyerror exADF ["b"] [] exBadIgnoreDiag rfl rfl
  exact ⟨h.1, h.2.2.2.2.2⟩

/-- C2 counterexample: with a workbook that loads fine but whose save raises
`PermissionError`, `report_df_to_excel` propagates the raw `PermissionError`
(not a `ReportWriteError`, which the code never defines), never completes the
save, and never calls `wb.close()` — the handle is not released on this error
path. -/
theorem save_failure_unwrapped_unclosed_cex :
    (report_df_to_excel exADF exEnvBadSave "Sheet1" 0 true).err =
        some PyError.permissionError ∧
      (report_df_to_excel exADF exEnvBadSave "Sheet1" 0 true).closed = false ∧
      (report_df_to_excel exADF exEnvBadSave "Sheet1" 0 true).saved = none ∧
      PyError.permissionError.isReportWriteError = false :=
  ⟨rfl, rfl, rfl, rfl⟩

/-- C2 (amended): `report_df_to_excel` saves and closes the workbook exactly
on the path where the load either succeeds or raises `FileNotFoundError` and
the save raises nothing; on every failing path the underlying exception
propagates to the caller unwrapped (a load exception other than
`FileNotFoundError`, or the save exception itself — never a
`ReportWriteError`), no save completes, and `wb.close()` is not called. -/
theorem report_exit_paths (df : DataFrame) (env : SaveEnv) (sheet_name : String)
    (num_col : ℕ) (resize_columns : Bool) :
    ((report_df_to_excel df env sheet_name num_col resize_columns).err = none →
        (report_df_to_excel df env sheet_name num_col resize_columns).closed = true ∧
          (report_df_to_excel df env sheet_name num_col resize_columns).saved ≠ none) ∧
      (∀ e, (report_df_to_excel df env sheet_name num_col resize_columns).err = some e →
        (report_df_to_excel df env sheet_name num_col resize_columns).closed = false ∧
          (report_df_to_excel df env sheet_name num_col resize_columns).saved = none ∧
          ((env.loadResult = LoadResult.raised e ∧ e ≠ PyError.fileNotFoundError) ∨
            env.saveError = some e)) := by
  rcases env with ⟨load, saveErr⟩
  rcases load with wb | e0
  · rcases saveErr with _ | e1
    · exact ⟨fun _ => ⟨rfl, by simp [report_df_to_excel]⟩,
        fun e he => by simp [report_df_to_excel] at he⟩
    · refine ⟨fun hn => by simp [report_df_to_excel] at hn, fun e he => ?_⟩
      have : e1 = e := by simpa [report_df_to_excel] using he
      subst this
      exact ⟨rfl, rfl, Or.inr rfl⟩
  · by_cases hfnf : e0 = PyError.fileNotFoundError
    · subst hfnf
      rcases saveErr with _ | e1
      · exact ⟨fun _ => ⟨rfl, by simp [report_df_to_excel]⟩,
          fun e he => by simp [report_df_to_excel] at he⟩
      · refine ⟨fun hn => by simp [report_df_to_excel] at hn, fun e he => ?_⟩
        have : e1 = e := by simpa [report_df_to_excel] using he
        subst this
        exact ⟨rfl, rfl, Or.inr rfl⟩
    · refine ⟨fun hn => by simp [report_df_to_excel, hfnf] at hn, fun e he => ?_⟩
      have : e0 = e := by simpa [report_df_to_excel, hfnf] using he
      subst this
      exact ⟨by simp [report_df_to_excel, hfnf],
        by simp [report_df_to_excel, hfnf], Or.inl ⟨rfl, hfnf⟩⟩

/-- Witness for the amended C2: a successful call closes the workbook; the
failing-save call of the counterexample environment does not. -/
theorem report_exit_paths_witness :
    (report_df_to_excel exADF ⟨LoadResult.raised PyError.fileNotFoundError, none⟩
        "Sheet1" 0 true).closed = true ∧
      (report_df_to_excel exADF exEnvBadSave "Sheet1" 0 true).closed = false := by
  constructor
  · exact ((report_exit_paths exADF ⟨LoadResult.raised PyError.fileNotFoundError, none⟩
      "Sheet1" 0 true).1 rfl).1
  · exact ((report_exit_paths exADF exEnvBadSave "Sheet1" 0 true).2
      PyError.permissionError rfl).1

/-! Lemmas about label-based column selection. -/

/-- A name occurring among the column names is found by `find?`. -/
theorem find?_name_isSome (cols : List Column) (n : String)
    (h : ∃ c ∈ cols, c.name = n) :
    (cols.find? (fun c => c.name == n)).isSome := by
  rcases h with ⟨c, hc, hn⟩
  exact List.find?_isSome.2 ⟨c, hc, by simp [hn]⟩

/-- Selecting existing names yields columns bearing exactly those names. -/
theorem map_name_filterMap_find (cols : List Column) (names : List String)
    (h : ∀ n ∈ names, ∃ c ∈ cols, c.name = n) :
    (names.filterMap (fun n => cols.find? (fun c => c.name == n))).map Column.name =
      names := by
  induction names with
  | nil => rfl
  | cons n ns ih =>
      obtain ⟨c₀, hc₀⟩ := Option.isSome_iff_exists.1
        (find?_name_isSome cols n (h n (List.mem_cons_self n ns)))
      have hname : c₀.name = n := by
        have := List.find?_some hc₀
        simpa using this
      rw [List.filterMap_cons, hc₀, List.map_cons, hname,
        ih (fun m hm => h m (List.mem_cons_of_mem n hm))]

/-- Looking a selected name up in the selection result finds the same column
the original frame's lookup finds. -/
theorem find?_filterMap_find (cols : List Column) (names : List String) (n : String)
    (h : ∀ m ∈ names, ∃ c ∈ cols, c.name = m) (hn : n ∈ names) :
    (names.filterMap (fun m => cols.find? (fun c => c.name == m))).find?
        (fun c => c.name == n) =
      cols.find? (fun c => c.name == n) := by
  induction names with
  | nil => exact absurd hn (List.not_mem_nil n)
  | cons m ms ih =>
      obtain ⟨c₀, hc₀⟩ := Option.isSome_iff_exists.1
        (find?_name_isSome cols m (h m (List.mem_cons_self m ms)))
      have hname : c₀.name = m := by
        have := List.find?_some hc₀
        simpa using this
      rw [List.filterMap_cons, hc₀]
      by_cases hmn : m = n
      · subst hmn
        rw [List.find?_cons]
        simp [hname, hc₀]
      · rw [List.find?_cons]
        have hpred : (c₀.name == n) = false := by
          simp [hname, hmn]
        rw [hpred]
        exact ih (fun k hk => h k (List.mem_cons_of_mem m hk))
          (by rcases List.mem_cons.1 hn with h1 | h1
              · exact absurd h1.symm hmn
              · exact h1)

/-- `df[names]` with every requested name present succeeds, returns the
columns under exactly the requested names in the requested order, and each
selected column's values are the original column's values. -/
theorem select_ok (df : DataFrame) (names : List String)
    (h : ∀ n ∈ names, n ∈ df.columns) :
    ∃ out, df.select names = Except.ok out ∧ out.columns = names ∧
      (∀ n ∈ names, out.getCol n = df.getCol n) ∧
      ∀ c ∈ out.cols, c ∈ df.cols := by
  have hex : ∀ n ∈ names, ∃ c ∈ df.cols, c.name = n := by
    intro n hn
    rcases List.mem_map.1 (h n hn) with ⟨c, hc, hc'⟩
    exact ⟨c, hc, hc'⟩
  have hall : (names.all (fun n => df.columns.contains n)) = true := by
    rw [List.all_eq_true]
    intro n hn
    exact List.elem_eq_true_of_mem (h n hn)
  refine ⟨⟨names.filterMap (fun n => df.cols.find? (fun c => c.name == n))⟩, ?_, ?_, ?_, ?_⟩
  · simp only [DataFrame.select, if_pos hall]
  · exact map_name_filterMap_find df.cols names hex
  · intro n hn
    unfold DataFrame.getCol
    rw [find?_filterMap_find df.cols names n hex hn]
  · intro c hc
    obtain ⟨n, _, hfind⟩ := List.mem_filterMap.1 hc
    exact List.mem_of_find?_eq_some hfind

/-- C4: for disjoint `first`/`last` lists drawn from the table's columns,
`_sort_dataframe` succeeds, its column-name sequence is
`first ++ (original columns minus first and last, in original order) ++ last`,
and each column keeps its original cell values at its new position. -/
theorem reorder_columns_correct (df : DataFrame)
    (first_columns last_columns : List String)
    (hf : ∀ n ∈ first_columns, n ∈ df.columns)
    (hl : ∀ n ∈ last_columns, n ∈ df.columns)
    (hdisj : ∀ n ∈ first_columns, n ∉ last_columns) :
    ∃ sorted, sort_dataframe df first_columns last_columns = Except.ok sorted ∧
      sorted.columns = first_columns ++
        df.columns.filter (fun col => !((first_columns ++ last_columns).contains col)) ++
        last_columns ∧
      ∀ n ∈ sorted.columns, sorted.getCol n = df.getCol n := by
  have hmem : ∀ n ∈ first_columns ++
      df.columns.filter (fun col => !((first_columns ++ last_columns).contains col)) ++
      last_columns, n ∈ df.columns := by
    intro n hn
    rcases List.mem_append.1 hn with h1 | h1
    · rcases List.mem_append.1 h1 with h2 | h2
      · exact hf n h2
      · exact (List.mem_filter.1 h2).1
    · exact hl n h1
  obtain ⟨out, hsel, hcols, hget, _⟩ := select_ok df _ hmem
  refine ⟨out, ?_, hcols, ?_⟩
  · simpa [sort_dataframe] using hsel
  · intro n hn
    exact hget n (hcols ▸ hn)

/-- A three-column frame used to instantiate the reordering theorems. -/
def exReorderDF : DataFrame :=
  ⟨[⟨"a", Dtype.int64, [Val.num 1]⟩, ⟨"b", Dtype.int64, [Val.num 2]⟩,
    ⟨"c", Dtype.int64, [Val.num 3]⟩]⟩

/-- Witness for C4 on a three-column frame with `first=["c"]`, `last=["a"]`. -/
theorem reorder_columns_correct_witness :
    ∃ sorted, sort_dataframe exReorderDF ["c"] ["a"] = Except.ok sorted ∧
      sorted.columns = ["c", "b", "a"] ∧
      ∀ n ∈ sorted.columns, sorted.getCol n = exReorderDF.getCol n := by
  obtain ⟨sorted, h1, h2, h3⟩ := reorder_columns_correct exReorderDF ["c"] ["a"]
    (by decide) (by decide) (by decide)
  exact ⟨sorted, h1, by rw [h2]; rfl, h3⟩

/-- A row count lemma: a frame whose columns all have length `k` and which has
at least one column has `len = k`. -/
theorem len_eq_of_cols (cs : List Column) (k : ℕ) (hne : cs ≠ [])
    (h : ∀ c ∈ cs, c.values.length = k) :
    (DataFrame.mk cs).len = k := by
  cases cs with
  | nil => exact absurd rfl hne
  | cons c rest => simpa [DataFrame.len] using h c (List.mem_cons_self c rest)

/-- C5: the ignore list is not applied by `_sort_dataframe` — every ignored
column (named in the table) still appears among the sorted table's columns —
and `diagnose_missing_values` is what excludes the ignored columns: its rows
carry no ignored name. -/
theorem ignore_not_applied_at_reorder (df : DataFrame)
    (first_columns last_columns ignore_columns : List String)
    (hf : ∀ n ∈ first_columns, n ∈ df.columns)
    (hl : ∀ n ∈ last_columns, n ∈ df.columns)
    (hi : ∀ n ∈ ignore_columns, n ∈ df.columns) :
    ∃ d, DataDiagnoser.init df first_columns last_columns ignore_columns =
        Except.ok d ∧
      (∀ n ∈ ignore_columns, n ∈ d.sorted_dataframe.columns) ∧
      ∃ rows, d.diagnose_missing_values = Except.ok rows ∧
        ∀ p ∈ rows, p.1 ∉ ignore_columns := by
  have hmem : ∀ n ∈ first_columns ++
      df.columns.filter (fun col => !((first_columns ++ last_columns).contains col)) ++
      last_columns, n ∈ df.columns := by
    intro n hn
    rcases List.mem_append.1 hn with h1 | h1
    · rcases List.mem_append.1 h1 with h2 | h2
      · exact hf n h2
      · exact (List.mem_filter.1 h2).1
    · exact hl n h1
  obtain ⟨out, hsel, hcols, _, _⟩ := select_ok df _ hmem
  have hsort : sort_dataframe df first_columns last_columns = Except.ok out := by
    simpa [sort_dataframe] using hsel
  have hig : ∀ n ∈ ignore_columns, n ∈ out.columns := by
    intro n hn
    rw [hcols]
    by_cases hc : ((first_columns ++ last_columns).contains n) = true
    · have hn' : n ∈ first_columns ++ last_columns := by simpa using hc
      rcases List.mem_append.1 hn' with h1 | h1
      · exact List.mem_append.2 (Or.inl (List.mem_append.2 (Or.inl h1)))
      · exact List.mem_append.2 (Or.inr h1)
    · refine List.mem_append.2 (Or.inl (List.mem_append.2 (Or.inr ?_)))
      exact List.mem_filter.2 ⟨hi n hn, by simpa using hc⟩
  have hall : (ignore_columns.all (fun n => out.columns.contains n)) = true := by
    rw [List.all_eq_true]
    intro n hn
    exact List.elem_eq_true_of_mem (hig n hn)
  have hdropok : out.drop ignore_columns =
      Except.ok ⟨out.cols.filter (fun c => !(ignore_columns.contains c.name))⟩ := by
    simp only [DataFrame.drop, if_pos hall]
  refine ⟨⟨df, first_columns, last_columns, ignore_columns, out⟩, ?_, hig, ?_⟩
  · simp only [DataDiagnoser.init, hsort]
  · refine ⟨_, by simp only [DataDiagnoser.diagnose_missing_values, hdropok]; rfl, ?_⟩
    intro p hp
    obtain ⟨c, hc, rfl⟩ := List.mem_map.1 hp
    have hnc := (List.mem_filter.1 hc).2
    simp only [Bool.not_eq_eq_eq_not, Bool.not_true] at hnc
    simpa using hnc

/-- Witness for C5: with `first=["c"]` and `ignore=["b"]`, the sorted table
still contains column `b`, and `diagnose_missing_values` has no row for it. -/
theorem ignore_not_applied_at_reorder_witness :
    ∃ d, DataDiagnoser.init exReorderDF ["c"] [] ["b"] = Except.ok d ∧
      "b" ∈ d.sorted_dataframe.columns ∧
      ∃ rows, d.diagnose_missing_values = Except.ok rows ∧
        ∀ p ∈ rows, p.1 ∉ (["b"] : List String) := by
  obtain ⟨d, h1, h2, rows, h3, h4⟩ := ignore_not_applied_at_reorder exReorderDF
    ["c"] [] ["b"] (by decide) (by decide) (by decide)
  exact ⟨d, h1, h2 "b" (List.mem_cons_self "b" []), rows, h3, h4⟩

/-- C6: on a table with at least one row whose ignore list names existing
columns, `diagnose_missing_values` has no row for ignored names, and each
surviving row's percentage is exactly its absolute count divided by the row
count times 100 (exact rational arithmetic, hence within any tolerance). -/
theorem missing_values_correct (df : DataFrame) (ignore_columns : List String)
    (hrows : 1 ≤ df.len)
    (hlen : ∀ c ∈ df.cols, c.values.length = df.len)
    (hi : ∀ n ∈ ignore_columns, n ∈ df.columns) :
    ∃ d, DataDiagnoser.init df [] [] ignore_columns = Except.ok d ∧
      ∃ rows, d.diagnose_missing_values = Except.ok rows ∧
        (∀ p ∈ rows, p.1 ∉ ignore_columns) ∧
        ∀ p ∈ rows, p.2.2 = (p.2.1 : ℚ) / (df.len : ℚ) * 100 := by
  have hmem : ∀ n ∈ ([] : List String) ++
      df.columns.filter (fun col => !((([] : List String) ++ ([] : List String)).contains col)) ++
      ([] : List String), n ∈ df.columns := by
    intro n hn
    rcases List.mem_append.1 hn with h1 | h1
    · rcases List.mem_append.1 h1 with h2 | h2
      · exact absurd h2 (List.not_mem_nil n)
      · exact (List.mem_filter.1 h2).1
    · exact absurd h1 (List.not_mem_nil n)
  obtain ⟨out, hsel, hcols, _, hsub⟩ := select_ok df _ hmem
  have hsort : sort_dataframe df ([] : List String) ([] : List String) = Except.ok out := by
    simpa [sort_dataframe] using hsel
  have hig : ∀ n ∈ ignore_columns, n ∈ out.columns := by
    intro n hn
    rw [hcols]
    refine List.mem_append.2 (Or.inl (List.mem_append.2 (Or.inr ?_)))
    exact List.mem_filter.2 ⟨hi n hn, by simp⟩
  have hall : (ignore_columns.all (fun n => out.columns.contains n)) = true := by
    rw [List.all_eq_true]
    intro n hn
    exact List.elem_eq_true_of_mem (hig n hn)
  have hdropok : out.drop ignore_columns =
      Except.ok ⟨out.cols.filter (fun c => !(ignore_columns.contains c.name))⟩ := by
    simp only [DataFrame.drop, if_pos hall]
  refine ⟨⟨df, [], [], ignore_columns, out⟩, ?_, ?_⟩
  · simp only [DataDiagnoser.init, hsort]
  · refine ⟨_, by simp only [DataDiagnoser.diagnose_missing_values, hdropok]; rfl, ?_, ?_⟩
    · intro p hp
      obtain ⟨c, hc, rfl⟩ := List.mem_map.1 hp
      have hnc := (List.mem_filter.1 hc).2
      simp only [Bool.not_eq_eq_eq_not, Bool.not_true] at hnc
      simpa using hnc
    · intro p hp
      obtain ⟨c, hc, rfl⟩ := List.mem_map.1 hp
      have hdlen : (DataFrame.mk
          (out.cols.filter (fun c => !(ignore_columns.contains c.name)))).len = df.len := by
        refine len_eq_of_cols _ _ (List.ne_nil_of_mem hc) ?_
        intro c' hc'
        exact hlen c' (hsub c' (List.mem_of_mem_filter hc'))
      simp only [hdlen]

/-- A two-column frame with missing values for the C6 witness. -/
def exMissingDF : DataFrame :=
  ⟨[⟨"a", Dtype.int64, [Val.num 1, Val.na]⟩,
    ⟨"b", Dtype.float64, [Val.na, Val.na]⟩]⟩

/-- Witness for C6 on a two-row frame ignoring column `b`. -/
theorem missing_values_correct_witness :
    ∃ d, DataDiagnoser.init exMissingDF [] [] ["b"] = Except.ok d ∧
      ∃ rows, d.diagnose_missing_values = Except.ok rows ∧
        (∀ p ∈ rows, p.1 ∉ (["b"] : List String)) ∧
        ∀ p ∈ rows, p.2.2 = (p.2.1 : ℚ) / (exMissingDF.len : ℚ) * 100 :=
  missing_values_correct exMissingDF ["b"] (by decide) (by decide) (by decide)

/-- Folding `min` over a list never exceeds the initial value. -/
theorem foldl_min_le (qs : List ℚ) (q : ℚ) : qs.foldl min q ≤ q := by
  induction qs generalizing q with
  | nil => exact le_refl q
  | cons x xs ih => exact le_trans (ih (min q x)) (min_le_left q x)

/-- Folding `max` over a list never drops below the initial value. -/
theorem le_foldl_max (qs : List ℚ) (q : ℚ) : q ≤ qs.foldl max q := by
  induction qs generalizing q with
  | nil => exact le_refl q
  | cons x xs ih => exact le_trans (le_max_left q x) (ih (max q x))

/-- C7 counterexample: on a table whose only column is non-numeric,
`diagnose_min_max_values` raises `ValueError` — so the non-numeric column gets
no Min/Max fields carrying the sentinel at all, contrary to the claim's
universal form. -/
theorem min_max_sentinel_claim_cex :
    exObjDiag.diagnose_min_max_values = Except.error PyError.valueError ∧
      (exObjDiag.diagnose_min_max_values).toOption = none :=
  ⟨rfl, rfl⟩

/-- C7 (amended): provided the surviving columns include at least one numeric
column (or there are none, so the guard of C10 does not fire),
`diagnose_min_max_values` succeeds; each numeric column with a non-missing
value gets a row with `min ≤ max`, each all-missing numeric column gets the
NaN sentinel row, and each non-numeric column gets the sentinel
`"Not numeric"` in both fields. -/
theorem min_max_values_correct (d : DataDiagnoser) (dfd : DataFrame)
    (hdrop : d.sorted_dataframe.drop d.ignore_columns = Except.ok dfd)
    (hnum : dfd.cols = [] ∨ ∃ c ∈ dfd.cols, is_numeric_dtype c.dtype = true) :
    ∃ rows, d.diagnose_min_max_values = Except.ok rows ∧
      (∀ c ∈ dfd.cols, is_numeric_dtype c.dtype = false →
        (c.name, Val.str "Not numeric", Val.str "Not numeric") ∈ rows) ∧
      (∀ c ∈ dfd.cols, is_numeric_dtype c.dtype = true → numVals c.values = [] →
        (c.name, Val.na, Val.na) ∈ rows) ∧
      (∀ c ∈ dfd.cols, is_numeric_dtype c.dtype = true → numVals c.values ≠ [] →
        ∃ mn mx : ℚ, (c.name, Val.num mn, Val.num mx) ∈ rows ∧ mn ≤ mx) := by
  simp only [DataDiagnoser.diagnose_min_max_values, hdrop]
  split
  · rename_i hguard
    exfalso
    rcases hguard with ⟨hne, hall⟩
    rcases hnum with hnil | ⟨c, hc, hcnum⟩
    · rw [hnil] at hne
      simp at hne
    · have hsc := List.all_eq_true.1 hall _ (List.mem_map.2 ⟨c, hc, rfl⟩)
      simp only [hcnum, if_true] at hsc
      simp [MinMaxEntry.isScalar] at hsc
  · refine ⟨_, rfl, ?_, ?_, ?_⟩
    · intro c hc hcnn
      exact List.mem_map.2 ⟨(c.name, MinMaxEntry.scalar "Not numeric"),
        List.mem_map.2 ⟨c, hc, by simp [hcnn]⟩, rfl⟩
    · intro c hc hcnum hnv
      exact List.mem_map.2 ⟨(c.name, MinMaxEntry.pair Val.na Val.na),
        List.mem_map.2 ⟨c, hc, by simp [hcnum, seriesMin, seriesMax, hnv]⟩, rfl⟩
    · intro c hc hcnum hnv
      obtain ⟨q, qs, hq⟩ := List.exists_cons_of_ne_nil hnv
      refine ⟨qs.foldl min q, qs.foldl max q,
        List.mem_map.2 ⟨(c.name,
            MinMaxEntry.pair (Val.num (qs.foldl min q)) (Val.num (qs.foldl max q))),
          List.mem_map.2 ⟨c, hc, by simp [hcnum, seriesMin, seriesMax, hq]⟩, rfl⟩,
        le_trans (foldl_min_le qs q) (le_foldl_max qs q)⟩

/-- A frame mixing a numeric column with values, an all-missing numeric column
and a non-numeric column. -/
def exMixDF : DataFrame :=
  ⟨[⟨"a", Dtype.int64, [Val.num 1, Val.na]⟩,
    ⟨"t", Dtype.objectDtype, [Val.str "x", Val.str "y"]⟩,
    ⟨"e", Dtype.float64, [Val.na, Val.na]⟩]⟩

/-- A diagnoser over `exMixDF` with nothing ignored. -/
def exMixDiag : DataDiagnoser := ⟨exMixDF, [], [], [], exMixDF⟩

/-- Witness for the amended C7 on `exMixDF`: all three row kinds appear. -/
theorem min_max_values_correct_witness :
    ∃ rows, exMixDiag.diagnose_min_max_values = Except.ok rows ∧
      ("t", Val.str "Not numeric", Val.str "Not numeric") ∈ rows ∧
      ("e", Val.na, Val.na) ∈ rows ∧
      ∃ mn mx : ℚ, ("a", Val.num mn, Val.num mx) ∈ rows ∧ mn ≤ mx := by
  obtain ⟨rows, hok, hnn, hna, hmm⟩ := min_max_values_correct exMixDiag exMixDF rfl
    (Or.inr ⟨⟨"a", Dtype.int64, [Val.num 1, Val.na]⟩, by decide, rfl⟩)
  refine ⟨rows, hok, ?_, ?_, ?_⟩
  · exact hnn ⟨"t", Dtype.objectDtype, [Val.str "x", Val.str "y"]⟩ (by decide) rfl
  · exact hna ⟨"e", Dtype.float64, [Val.na, Val.na]⟩ (by decide) rfl (by decide)
  · exact hmm ⟨"a", Dtype.int64, [Val.num 1, Val.na]⟩ (by decide) rfl (by decide)

/-- Reading back a block written at offset `start`: position `start + j`
holds the `j`-th block. -/
theorem writeBlocksAt_getD (cols blocks : List (List Val)) (start j : ℕ)
    (hj : j < blocks.length) :
    (writeBlocksAt cols blocks start).getD (start + j) [] = blocks.getD j [] := by
  unfold writeBlocksAt
  have hlt : start + j < max cols.length (start + blocks.length) :=
    lt_of_lt_of_le (by omega) (le_max_right _ _)
  rw [List.getD_eq_getElem?_getD, List.getElem?_map, List.getElem?_range hlt]
  simp only [Option.map_some', Option.getD_some]
  rw [if_pos ⟨Nat.le_add_right start j, by omega⟩]
  simp

/-- With unique column names, `find?` by the `j`-th column's name returns the
`j`-th column. -/
theorem find?_name_nodup (cols : List Column) (hnd : (cols.map Column.name).Nodup)
    (j : ℕ) (hj : j < cols.length) :
    cols.find? (fun c => c.name == (cols.get ⟨j, hj⟩).name) = some (cols.get ⟨j, hj⟩) := by
  induction cols generalizing j with
  | nil => exact absurd hj (by simp)
  | cons c rest ih =>
      cases j with
      | zero => simp [List.find?_cons]
      | succ j =>
          have hj' : j < rest.length := by simpa using hj
          have hget : (c :: rest).get ⟨j + 1, hj⟩ = rest.get ⟨j, hj'⟩ := rfl
          have hmem : (rest.get ⟨j, hj'⟩).name ∈ rest.map Column.name :=
            List.mem_map.2 ⟨rest.get ⟨j, hj'⟩, List.get_mem rest j hj', rfl⟩
          have hni := List.nodup_cons.1
            (show (Column.name c :: rest.map Column.name).Nodup from hnd)
          have hne : (c.name == (rest.get ⟨j, hj'⟩).name) = false := by
            simp only [beq_eq_false_iff_ne, ne_eq]
            intro h
            exact hni.1 (h ▸ hmem)
          rw [hget, List.find?_cons, hne]
          exact ih hni.2 j hj'

/-- In a frame with unique column names, label lookup of the `j`-th name
yields the `j`-th column's values. -/
theorem getCol_name_get (df : DataFrame) (hnd : df.columns.Nodup)
    (j : ℕ) (hj : j < df.cols.length) :
    df.getCol ((df.cols.get ⟨j, hj⟩).name) = (df.cols.get ⟨j, hj⟩).values := by
  unfold DataFrame.getCol
  rw [find?_name_nodup df.cols hnd j hj]

/-- The `j`-th column block produced by `dataframe_to_columns` is the `j`-th
column's name followed by its values. -/
theorem dataframe_to_columns_getD (df : DataFrame) (hnd : df.columns.Nodup)
    (j : ℕ) (hj : j < df.cols.length) :
    (dataframe_to_columns df).getD j [] =
      Val.str ((df.cols.get ⟨j, hj⟩).name) :: (df.cols.get ⟨j, hj⟩).values := by
  have hjc : j < df.columns.length := by simpa [DataFrame.columns] using hj
  unfold dataframe_to_columns
  rw [List.getD_eq_getElem?_getD, List.getElem?_map, List.getElem?_eq_getElem hjc]
  simp only [Option.map_some', Option.getD_some]
  have hname : df.columns[j] = (df.cols.get ⟨j, hj⟩).name := by
    simp [DataFrame.columns, List.get_eq_getElem]
  rw [hname, getCol_name_get df hnd j hj]

/-- C1: on the environment where the report call completes (a loadable or
creatable workbook, no save failure), `report_df_to_excel` writes for the
`j`-th table column the block `[columnName, value1, value2, ...]` into the
saved worksheet at column index `num_col + j`. -/
theorem append_table_column_blocks (df : DataFrame) (wb : Workbook) (env : SaveEnv)
    (sheet_name : String) (num_col : ℕ) (resize_columns : Bool)
    (hload : env.loadResult = LoadResult.ok wb) (hsave : env.saveError = none)
    (hnd : df.columns.Nodup) (j : ℕ) (hj : j < df.cols.length) :
    ∃ ws, (report_df_to_excel df env sheet_name num_col resize_columns).saved = some ws ∧
      ws.cols.getD (num_col + j) [] =
        Val.str ((df.cols.get ⟨j, hj⟩).name) :: (df.cols.get ⟨j, hj⟩).values := by
  have hjb : j < (dataframe_to_columns df).length := by
    simpa [dataframe_to_columns, DataFrame.columns] using hj
  refine ⟨if resize_columns then
      resizeColumns (wb.active.append_column (dataframe_to_columns df) num_col)
    else wb.active.append_column (dataframe_to_columns df) num_col, ?_, ?_⟩
  · cases resize_columns <;> simp [report_df_to_excel, hload, hsave]
  · have hcols : (if resize_columns then
        resizeColumns (wb.active.append_column (dataframe_to_columns df) num_col)
      else wb.active.append_column (dataframe_to_columns df) num_col).cols =
        writeBlocksAt wb.active.cols (dataframe_to_columns df) num_col := by
      cases resize_columns <;> simp [resizeColumns, Worksheet.append_column]
    rw [hcols, writeBlocksAt_getD _ _ _ _ hjb,
      dataframe_to_columns_getD df hnd j hj]

/-- Witness for C1: appending the one-column frame `exADF` to an empty loaded
worksheet puts `[columnName, value1, value2]` in the leftmost column. -/
theorem append_table_column_blocks_witness :
    ∃ ws, (report_df_to_excel exADF ⟨LoadResult.ok ⟨⟨"Data", [], []⟩⟩, none⟩
        "Sheet1" 0 true).saved = some ws ∧
      ws.cols.getD 0 [] = [Val.str "a", Val.num 1, Val.na] := by
  obtain ⟨ws, h1, h2⟩ := append_table_column_blocks exADF ⟨⟨"Data", [], []⟩⟩
    ⟨LoadResult.ok ⟨⟨"Data", [], []⟩⟩, none⟩ "Sheet1" 0 true rfl rfl (by decide)
    0 (by decide)
  exact ⟨ws, h1, h2⟩

/-- C9: when the file loads successfully, `sheet_name` has no effect on the
call at all, and the saved sheet is the workbook's active sheet with the
column blocks written in (its title unchanged); `sheet_name` becomes the title
of the single sheet only when `load_workbook` raised `FileNotFoundError` and a
new workbook was created. -/
theorem sheet_name_only_titles_new_file (df : DataFrame) (env envNew : SaveEnv)
    (wb : Workbook) (s1 s2 : String) (num_col : ℕ) (resize_columns : Bool)
    (hload : env.loadResult = LoadResult.ok wb)
    (hnewload : envNew.loadResult = LoadResult.raised PyError.fileNotFoundError)
    (hnewsave : envNew.saveError = none) :
    report_df_to_excel df env s1 num_col resize_columns =
        report_df_to_excel df env s2 num_col resize_columns ∧
      (env.saveError = none → ∃ ws,
        (report_df_to_excel df env s1 num_col resize_columns).saved = some ws ∧
          ws.title = wb.active.title ∧
          ws.cols = writeBlocksAt wb.active.cols (dataframe_to_columns df) num_col) ∧
      ∃ ws, (report_df_to_excel df envNew s1 num_col resize_columns).saved = some ws ∧
        ws.title = s1 := by
  refine ⟨?_, ?_, ?_⟩
  · simp [report_df_to_excel, hload]
  · intro hs
    cases resize_columns <;>
      simp [report_df_to_excel, hload, hs, resizeColumns, Worksheet.append_column]
  · cases resize_columns <;>
      simp [report_df_to_excel, hnewload, hnewsave, resizeColumns,
        Worksheet.append_column, Workbook.new]

/-- Witness for C9: two calls differing only in sheet name coincide on an
existing file, and on a missing file the new sheet is titled by the argument.
-/
theorem sheet_name_only_titles_new_file_witness :
    report_df_to_excel exADF ⟨LoadResult.ok ⟨⟨"Data", [], []⟩⟩, none⟩ "Alpha" 0 true =
        report_df_to_excel exADF ⟨LoadResult.ok ⟨⟨"Data", [], []⟩⟩, none⟩ "Beta" 0 true ∧
      ∃ ws, (report_df_to_excel exADF ⟨LoadResult.raised PyError.fileNotFoundError, none⟩
          "Alpha" 0 true).saved = some ws ∧ ws.title = "Alpha" := by
  have h := sheet_name_only_titles_new_file exADF
    ⟨LoadResult.ok ⟨⟨"Data", [], []⟩⟩, none⟩
    ⟨LoadResult.raised PyError.fileNotFoundError, none⟩
    ⟨⟨"Data", [], []⟩⟩ "Alpha" "Beta" 0 true rfl rfl rfl
  exact ⟨h.1, h.2.2⟩

end Datadiag
